import Mathlib

/-!
Verification of the conversion dispatch/fallback logic of the
libre-everywhere repository, as a shallow embedding of
`src/convert.py` (the `FileConverterManager` and its adapters) and
`src/config.py`.  External tools (LibreOffice, AbiWord, pyhwp,
WeasyPrint, pandas) and the file system are modelled as oracles:
each adapter invocation is a function supplied by an `Env`, returning
`Except String String` (raised exception text, or produced output path),
exactly mirroring the `try`/`except` structure of the Python code.
-/

/-- Python `os.path.splitext(p)[1]`: the extension of the basename of `p`,
including the leading dot; leading dots of the basename do not start an
extension (`.bashrc` has no extension). -/
def splitextExt (p : String) : String :=
  let base := (p.toList.reverse.takeWhile (fun c => c != '/')).reverse
  let trimmed := base.dropWhile (fun c => c == '.')
  if trimmed.contains '.' then
    String.mk ('.' :: (trimmed.reverse.takeWhile (fun c => c != '.')).reverse)
  else ""

/-- Python `s.lstrip(".")`: drop every leading dot. -/
def lstripDots (s : String) : String :=
  String.mk (s.toList.dropWhile (fun c => c == '.'))

/-- Python `s.lower()` (ASCII range, which covers every string this program
compares). -/
def pyLower (s : String) : String :=
  String.mk (s.toList.map Char.toLower)

/-- Python `s.startswith(t)`. -/
def pyStartsWith (s t : String) : Bool :=
  List.isPrefixOf t.toList s.toList

/-- Python `s.endswith(t)`. -/
def pyEndsWith (s t : String) : Bool :=
  List.isSuffixOf t.toList s.toList

/-- `CONVERSION_MAPPINGS` from `src/convert.py` (identical to the table in
`src/config.py`): input extension → default list of output extensions.
The `.docx` entry is commented out in the source. -/
def CONVERSION_MAPPINGS : List (String × List String) :=
  [(".doc", ["pdf"]),
   (".rtf", ["pdf"]),
   (".odt", ["pdf"]),
   (".xls", ["xlsx"]),
   (".xlsm", ["xlsx"]),
   (".ppt", ["pptx"]),
   (".hwp", ["pdf"]),
   (".mht", ["html"])]

/-- Python `CONVERSION_MAPPINGS.get(ext)`: dictionary lookup. -/
def mappingsGet (ext : String) : Option (List String) :=
  (CONVERSION_MAPPINGS.find? (fun p => p.1 == ext)).map Prod.snd

/-- `get_output_extensions` from `src/config.py`: prepend a dot when absent,
lowercase, look up `CONVERSION_MAPPINGS`, default `["pdf"]`. -/
def getOutputExtensions (inputExt : String) : List String :=
  let e := if pyStartsWith inputExt "." then inputExt else "." ++ inputExt
  (mappingsGet (pyLower e)).getD ["pdf"]

/-- The target-extension resolution step of `FileConverterManager.convert_any`
(`src/convert.py` lines 407-412): an explicit `convert_to` is lowercased and
stripped of leading dots; otherwise the table is consulted with default
`[".pdf"]`. -/
def resolveTargets (ext : String) (convertTo : Option String) : List String :=
  match convertTo with
  | some c => [lstripDots (pyLower c)]
  | none => (mappingsGet (pyLower ext)).getD [".pdf"]

/-- The adapters owned by `FileConverterManager`, as they appear in attempt
traces. -/
inductive Adapter
  | libre
  | abi
  | pandas
  | hwp
  | mht
  deriving DecidableEq

/-- One recorded adapter invocation: the adapter and the target extension it
was asked for. -/
abbrev Attempt := Adapter × String

/-- Oracle for the effectful adapter calls made by the manager.  Each field
takes the source path (and target extension where the Python method does) and
returns either the produced output path or the text of the raised
exception. -/
structure Env where
  libre : String → String → Except String String
  abi : String → String → Except String String
  pandas : String → Except String String
  hwpPdf : String → Except String String
  mhtHtml : String → Except String String

/-- `FileConverterManager._convert_doc_to_docx`: LibreOffice first, AbiWord on
`RuntimeError`, wrapping a second failure. -/
def convertDocToDocx (env : Env) (p : String) : List Attempt × Except String String :=
  match env.libre p "docx" with
  | .ok o => ([(.libre, "docx")], .ok o)
  | .error _ =>
    match env.abi p "docx" with
    | .ok o => ([(.libre, "docx"), (.abi, "docx")], .ok o)
    | .error e =>
      ([(.libre, "docx"), (.abi, "docx")],
       .error ("All DOC conversion methods failed: " ++ e))

/-- `FileConverterManager._convert_xls_to_xlsx`: LibreOffice first, the pandas
adapter on `RuntimeError` (a pandas failure propagates to the caller). -/
def convertXlsToXlsx (env : Env) (p : String) : List Attempt × Except String String :=
  match env.libre p "xlsx" with
  | .ok o => ([(.libre, "xlsx")], .ok o)
  | .error _ =>
    match env.pandas p with
    | .ok o => ([(.libre, "xlsx"), (.pandas, "xlsx")], .ok o)
    | .error e => ([(.libre, "xlsx"), (.pandas, "xlsx")], .error e)

/-- The "document-like" target extensions for which the AbiWord fallback is
tried (`src/convert.py` line 491). -/
def DOC_LIKE : List String := ["pdf", "docx", "rtf", "odt", "txt"]

/-- `FileConverterManager._try_fallback_conversion`: LibreOffice with the
requested target; on any exception, AbiWord when the target is document-like;
every failure is swallowed (`None`), no exception escapes. -/
def tryFallbackConversion (env : Env) (p t : String) : List Attempt × Option String :=
  match env.libre p t with
  | .ok o => ([(.libre, t)], some o)
  | .error _ =>
    if DOC_LIKE.contains t then
      match env.abi p t with
      | .ok o => ([(.libre, t), (.abi, t)], some o)
      | .error _ => ([(.libre, t), (.abi, t)], none)
    else ([(.libre, t)], none)

/-- The body of the `for target_ext in output_exts` loop of
`FileConverterManager.convert_any` (lines 417-458) for one target extension:
the dispatch table over `(ext, target)`, the explicit-target fallback, and the
per-target `except` that turns any raised exception into "no output for this
target".  Returns the adapter attempts made and the output recorded, if
any. -/
def convertTargetStep (env : Env) (p ext target : String) (explicit : Bool) :
    List Attempt × Option String :=
  if ext == ".doc" && target == "docx" then
    match convertDocToDocx env p with
    | (a, .ok o) => (a, some o)
    | (a, .error _) => (a, none)
  else if ext == ".xls" && target == "xlsx" then
    match convertXlsToXlsx env p with
    | (a, .ok o) => (a, some o)
    | (a, .error _) => (a, none)
  else if ext == ".ppt" && target == "pptx" then
    match env.libre p target with
    | .ok o => ([(.libre, target)], some o)
    | .error _ => ([(.libre, target)], none)
  else if ext == ".hwp" && target == "pdf" then
    match env.hwpPdf p with
    | .ok o => ([(.hwp, target)], some o)
    | .error _ => ([(.hwp, target)], none)
  else if ext == ".mht" && target == "html" then
    match env.mhtHtml p with
    | .ok o => ([(.mht, target)], some o)
    | .error _ => ([(.mht, target)], none)
  else if explicit then tryFallbackConversion env p target
  else ([], none)

/-- The `for` loop of `convert_any`, accumulating the attempt trace and the
`outputs` list in order. -/
def convertAnyLoop (env : Env) (p ext : String) (explicit : Bool) :
    List String → List Attempt → List String → List Attempt × List String
  | [], tr, outs => (tr, outs)
  | t :: ts, tr, outs =>
    match convertTargetStep env p ext t explicit with
    | (a, some o) => convertAnyLoop env p ext explicit ts (tr ++ a) (outs ++ [o])
    | (a, none) => convertAnyLoop env p ext explicit ts (tr ++ a) outs

/-- `FileConverterManager.convert_any`: lowercase the source extension,
resolve the target-extension list, return early when it is empty, then run the
per-target loop.  Result: `(attempt trace, outputs)`. -/
def convertAny (env : Env) (filePath : String) (convertTo : Option String) :
    List Attempt × List String :=
  if (resolveTargets (pyLower (splitextExt filePath)) convertTo).isEmpty then ([], [])
  else
    convertAnyLoop env filePath (pyLower (splitextExt filePath)) convertTo.isSome
      (resolveTargets (pyLower (splitextExt filePath)) convertTo) [] []

/-- The `(source extension, target extension)` pairs handled by the dispatch
branches of `convert_any` (the "fixed support table"). -/
def supportedPair (ext target : String) : Bool :=
  (ext == ".doc" && target == "docx") || (ext == ".xls" && target == "xlsx") ||
  (ext == ".ppt" && target == "pptx") || (ext == ".hwp" && target == "pdf") ||
  (ext == ".mht" && target == "html")

/-- The output-file search of `LibreOfficeConverter.convert`
(`src/convert.py` lines 103-116), with paths relative to the output
directory: `listing` is the directory listing in order, `base` the source
basename without extension, `tExt` the requested target extension.  If the
expected `base.tExt` exists it is returned; otherwise the first listing entry
whose lowercased name starts with the lowercased basename and ends with
`"." ++ tExt` is returned; otherwise the adapter raises. -/
def libreScanLoop (base tExt : String) : List String → Option String
  | [] => none
  | n :: ns =>
    if pyStartsWith (pyLower n) (pyLower base) && pyEndsWith (pyLower n) ("." ++ tExt) then
      some n
    else libreScanLoop base tExt ns

/-- `LibreOfficeConverter.convert` after the subprocess ran: locate the
produced file in the output directory. -/
def libreLocateOutput (listing : List String) (base tExt : String) : Except String String :=
  let expected := base ++ "." ++ tExt
  if listing.contains expected then .ok expected
  else
    match libreScanLoop base tExt listing with
    | some n => .ok n
    | none => .error ("LibreOffice conversion failed: " ++ expected)

/-- The same search written from the amended specification words: expected
exact name first, else the first entry whose lowercased name starts with the
lowercased basename and ends with the literal `"." ++ tExt` (case-insensitive
only in the filename, not in the target extension). -/
def libreLocateOutputSpec (listing : List String) (base tExt : String) : Except String String :=
  let expected := base ++ "." ++ tExt
  if expected ∈ listing then .ok expected
  else
    match listing.find?
        (fun n => pyStartsWith (pyLower n) (pyLower base) && pyEndsWith (pyLower n) ("." ++ tExt)) with
    | some n => .ok n
    | none => .error ("LibreOffice conversion failed: " ++ expected)

/-- Python truthiness test `not display or display == ":99"` of
`AbiWordConverter.convert` (line 144): the environment variable is unset, set
to the empty string, or set to `":99"`. -/
def displayNeedsXvfb : Option String → Bool
  | none => true
  | some s => s == "" || s == ":99"

/-- The command vector built by `AbiWordConverter.convert` (lines 148-157). -/
def abiCommand (display : Option String) (inputAbs tExt : String) : List String :=
  if displayNeedsXvfb display then
    ["xvfb-run", "-a", "abiword", "--to=" ++ tExt, inputAbs, "--plugin=AbiCommand"]
  else ["abiword", "--to=" ++ tExt, inputAbs, "--plugin=AbiCommand"]

/-- A file-system mutation performed by an adapter. -/
inductive FsOp
  | remove (p : String)
  | move (src dst : String)
  | rmtree (dir : String)
  deriving DecidableEq

/-- Oracle state for one `AbiWordConverter.convert` call: tool availability,
the `DISPLAY` variable, whether the subprocess exits 0, whether the tool left
`base.tExt` in the source directory, and whether a file of that name already
exists in the current working directory. -/
structure AbiEnv where
  abiwordInstalled : Bool
  display : Option String
  xvfbInstalled : Bool
  runOk : Bool
  outputProduced : Bool
  destPreexists : Bool

/-- `AbiWordConverter.convert` (`src/convert.py` lines 126-170): availability
check, headless wrapping (failing without `xvfb-run`), subprocess, then
relocation of the tool's output from the source directory to the current
working directory (removing a pre-existing destination first).  Returns the
destination path and the file-system operations performed. -/
def abiConvert (env : AbiEnv) (inputDir cwd base tExt : String) :
    Except String (String × List FsOp) :=
  if !env.abiwordInstalled then .error "AbiWord not found. Please install AbiWord."
  else
    let abiOut := inputDir ++ "/" ++ base ++ "." ++ tExt
    let finalOut := cwd ++ "/" ++ base ++ "." ++ tExt
    if displayNeedsXvfb env.display && !env.xvfbInstalled then
      .error "xvfb-run required for headless AbiWord operation."
    else if !env.runOk then .error "Command failed"
    else if env.outputProduced then
      if abiOut == finalOut then .ok (finalOut, [])
      else
        .ok (finalOut,
          (if env.destPreexists then [FsOp.remove finalOut] else []) ++
            [FsOp.move abiOut finalOut])
    else .error ("AbiWord conversion failed: " ++ abiOut)

/-- `HWPConverter.to_pdf` (`src/convert.py` lines 223-263), with the
`to_html` call and the WeasyPrint rendering as oracles: `toHtmlRes` is the
result of `to_html` (the markup output directory, or the exception it
raised), `renderRes` the outcome of `write_pdf`.  Returns the file-system
operations performed and the result: on `to_html` failure the exception
propagates with no cleanup; otherwise the markup directory is removed (when
`removeHtml`) both when rendering succeeds and when it raises. -/
def hwpToPdf (toHtmlRes : Except String String) (renderRes : Except String Unit)
    (cwd base : String) (removeHtml : Bool) : List FsOp × Except String String :=
  match toHtmlRes with
  | .error e => ([], .error e)
  | .ok outDir =>
    match renderRes with
    | .ok _ =>
      ((if removeHtml then [FsOp.rmtree outDir] else []),
       .ok (cwd ++ "/" ++ base ++ ".pdf"))
    | .error e =>
      ((if removeHtml then [FsOp.rmtree outDir] else []),
       .error ("HWP to PDF conversion failed: " ++ e))

/-- A spreadsheet as cell values: sheets in order, each a name and its rows. -/
abbrev Sheet := List (List String)

/-- A workbook: sheet name → rows of cell values, in order. -/
abbrev Workbook := List (String × Sheet)

/-- A pandas DataFrame at the cell-value level of abstraction: a default
integer row index plus the rows read from a sheet. -/
structure DataFrame where
  index : List Nat
  rows : List (List String)
  deriving DecidableEq

/-- `pd.read_excel(path)` with the default `sheet_name=0`: the first sheet
only, as a DataFrame with a fresh range index; raises on an empty workbook. -/
def readExcelDefault (wb : Workbook) : Except String DataFrame :=
  match wb with
  | [] => .error "no sheets"
  | (_, s) :: _ => .ok ⟨List.range s.length, s⟩

/-- `pd.read_excel(path, sheet_name=None)`: every sheet, keyed by name. -/
def readExcelAllSheets (wb : Workbook) : List (String × DataFrame) :=
  wb.map (fun p => (p.1, ⟨List.range p.2.length, p.2⟩))

/-- `df.to_excel(..., index=writeIndex)`: the rows written to one sheet, with
the row-index values prepended as a first column exactly when `writeIndex`. -/
def toExcelSheet (df : DataFrame) (writeIndex : Bool) : Sheet :=
  if writeIndex then (df.index.zip df.rows).map (fun p => toString p.1 :: p.2)
  else df.rows

/-- `PandasXLSConverter.convert` (`src/convert.py` lines 365-384) at the
cell-value level: `pd.read_excel(xls_abs, engine="xlrd")` (default first
sheet) then `df.to_excel(xlsx_output, index=False, ...)`, which writes a
single sheet under the library's default name `"Sheet1"`. -/
def pandasXlsConvert (wb : Workbook) : Except String Workbook :=
  match readExcelDefault wb with
  | .error e => .error ("XLS to XLSX conversion failed: " ++ e)
  | .ok df => .ok [("Sheet1", toExcelSheet df false)]

/-- Legacy `xls_to_xlsx_pandas` (top-level `convert.py` lines 91-97):
`pd.read_excel(path, sheet_name=None)` then one `to_excel` call per sheet
with `sheet_name=name, index=False`. -/
def xlsToXlsxPandas (wb : Workbook) : Workbook :=
  (readExcelAllSheets wb).map (fun p => (p.1, toExcelSheet p.2 false))

/-- The per-file body of the directory branch of
`FileConverterManager.convert_path` (`src/convert.py` lines 510-524): skip
hidden names, require the lowercased extension to be a mapping key, call the
manager (`conv`, which may raise), and record an entry only for a non-empty
output list. -/
def convertPathStep (conv : String → Except String (List String))
    (entry : String × String) : Option (String × List String) :=
  if pyStartsWith entry.2 "." then none
  else if (mappingsGet (pyLower (splitextExt entry.2))).isSome then
    match conv (entry.1 ++ "/" ++ entry.2) with
    | .ok outs => if outs.isEmpty then none else some (entry.1 ++ "/" ++ entry.2, outs)
    | .error _ => none
  else none

/-- The directory branch of `FileConverterManager.convert_path`: `walk` is
the `(root, filename)` sequence produced by `os.walk`, in order; the result
is the insertion-ordered `results` dictionary as an association list. -/
def convertPathDir (conv : String → Except String (List String)) :
    List (String × String) → List (String × List String)
  | [] => []
  | e :: es =>
    match convertPathStep conv e with
    | some r => r :: convertPathDir conv es
    | none => convertPathDir conv es

/-- An adapter oracle in which every external tool fails. -/
def envAllFail : Env :=
  ⟨fun _ _ => .error "libreoffice failed", fun _ _ => .error "abiword failed",
   fun _ => .error "pandas failed", fun _ => .error "hwp failed",
   fun _ => .error "mht failed"⟩

/-- An adapter oracle in which every external tool succeeds, producing an
output path derived from the inputs. -/
def envAllOk : Env :=
  ⟨fun p t => .ok (p ++ "." ++ t), fun p t => .ok (p ++ "." ++ t),
   fun p => .ok (p ++ ".xlsx"), fun p => .ok (p ++ ".pdf"),
   fun p => .ok (p ++ ".html")⟩

theorem convertAnyLoop_eq (env : Env) (p ext : String) (explicit : Bool) :
    ∀ (ts : List String) (tr : List Attempt) (outs : List String),
    convertAnyLoop env p ext explicit ts tr outs =
      (tr ++ (ts.map (fun t => (convertTargetStep env p ext t explicit).1)).flatten,
       outs ++ ts.filterMap (fun t => (convertTargetStep env p ext t explicit).2)) := by
  intro ts
  induction ts with
  | nil => intro tr outs; simp [convertAnyLoop]
  | cons t ts ih =>
    intro tr outs
    rcases h : convertTargetStep env p ext t explicit with ⟨a, o⟩
    cases o with
    | some v => simp [convertAnyLoop, h, ih]
    | none => simp [convertAnyLoop, h, ih]

theorem convertTargetStep_not_supported (env : Env) (p ext t : String)
    (h : supportedPair ext t = false) :
    convertTargetStep env p ext t true = tryFallbackConversion env p t := by
  simp only [supportedPair, Bool.or_eq_false_iff] at h
  obtain ⟨⟨⟨⟨h1, h2⟩, h3⟩, h4⟩, h5⟩ := h
  simp [convertTargetStep, h1, h2, h3, h4, h5]

/-- C4: for every adapter oracle, source path and optional explicit target,
`convert_any` is a total function returning the pair (attempt trace, output
list): every adapter exception is consumed inside the per-target `except`
(`convertTargetStep` returns an `Option`, never an exception), and the loop
processes each resolved target extension independently — the trace is the
concatenation of the per-target traces and the output list is the in-order
collection of the per-target successes, so a failure for one target cannot
suppress the attempts or outputs of the remaining targets. -/
theorem convertAny_total_and_per_target (env : Env) (filePath : String)
    (convertTo : Option String) :
    convertAny env filePath convertTo =
      (((resolveTargets (pyLower (splitextExt filePath)) convertTo).map
          (fun t => (convertTargetStep env filePath (pyLower (splitextExt filePath)) t
            convertTo.isSome).1)).flatten,
       (resolveTargets (pyLower (splitextExt filePath)) convertTo).filterMap
          (fun t => (convertTargetStep env filePath (pyLower (splitextExt filePath)) t
            convertTo.isSome).2)) := by
  unfold convertAny
  split
  · rename_i h
    rw [List.isEmpty_iff.mp h]
    simp
  · rw [convertAnyLoop_eq]
    simp

/-- C1: contrary to the claim, for a `.doc` source with no explicit target the
manager attempts no adapter chain at all: the resolved target list is
`["pdf"]`, but no dispatch branch handles `(".doc", "pdf")` and the
opportunistic fallback is gated on an explicit target, so `convert_any` makes
zero adapter attempts and returns the empty output list — for every adapter
oracle, even one in which every tool succeeds. -/
theorem convertAny_doc_default_no_attempts (env : Env) (p : String)
    (h : pyLower (splitextExt p) = ".doc") :
    convertAny env p none = ([], []) := by
  unfold convertAny
  rw [h]
  rfl

theorem convertAny_doc_default_no_attempts_witness :
    pyLower (splitextExt "report.doc") = ".doc" ∧
      convertAny envAllOk "report.doc" none = ([], []) :=
  ⟨rfl, convertAny_doc_default_no_attempts envAllOk "report.doc" rfl⟩

/-- C10: for a source file whose extension is `.rtf`, `.odt` or `.xlsm` and no
explicit target, `convert_any` returns the empty list (and makes no adapter
attempt), although each of these extensions is a key of `CONVERSION_MAPPINGS`
with a non-empty target list: no dispatch branch handles these pairs and the
opportunistic fallback requires an explicit target. -/
theorem convertAny_unhandled_defaults_empty (env : Env) (p : String)
    (h : pyLower (splitextExt p) = ".rtf" ∨ pyLower (splitextExt p) = ".odt" ∨
      pyLower (splitextExt p) = ".xlsm") :
    convertAny env p none = ([], []) := by
  rcases h with h | h | h <;> (unfold convertAny; rw [h]; rfl)

theorem convertAny_unhandled_defaults_empty_witness :
    (pyLower (splitextExt "a.rtf") = ".rtf" ∨ pyLower (splitextExt "a.rtf") = ".odt" ∨
      pyLower (splitextExt "a.rtf") = ".xlsm") ∧
      convertAny envAllOk "a.rtf" none = ([], []) :=
  ⟨Or.inl rfl, convertAny_unhandled_defaults_empty envAllOk "a.rtf" (Or.inl rfl)⟩

/-- C2 counterexample: `.xyz` is not a key of `CONVERSION_MAPPINGS`, yet with
no explicit target `convert_any` resolves the target list to `[".pdf"]`
(leading dot kept), not the claimed `["pdf"]`. -/
theorem resolveTargets_default_counterexample :
    mappingsGet (pyLower ".xyz") = none ∧ resolveTargets ".xyz" none ≠ ["pdf"] := by
  decide

/-- C2 (amended): for every input extension whose lowercased form is not a key
of `CONVERSION_MAPPINGS`, `convert_any` with no explicit target resolves the
target-extension list to exactly the single-element list `[".pdf"]` (the
manager keeps the leading dot in its inline default); the config helper
`get_output_extensions`, which the manager does not call, returns `["pdf"]`
for such an extension instead. -/
theorem resolveTargets_unknown_ext_default (ext : String)
    (h : mappingsGet (pyLower ext) = none) :
    resolveTargets ext none = [".pdf"] ∧
      (pyStartsWith ext "." = true → getOutputExtensions ext = ["pdf"]) := by
  constructor
  · unfold resolveTargets
    rw [h]
    rfl
  · intro hs
    unfold getOutputExtensions
    simp only [hs, if_true]
    rw [h]
    rfl

theorem resolveTargets_unknown_ext_default_witness :
    resolveTargets ".xyz" none = [".pdf"] ∧ getOutputExtensions ".xyz" = ["pdf"] :=
  ⟨(resolveTargets_unknown_ext_default ".xyz" (by decide)).1,
   (resolveTargets_unknown_ext_default ".xyz" (by decide)).2 (by decide)⟩

/-- C3: with an explicit target whose `(source extension, target extension)`
pair is not in the dispatch table, `convert_any` runs exactly the opportunistic
fallback: LibreOffice first with the requested target; on a LibreOffice
failure AbiWord is tried precisely when the target is one of pdf, docx, rtf,
odt, txt; when the chain is exhausted no output is recorded for that target,
and no exception reaches the caller (the result is always a plain pair of
trace and outputs). -/
theorem convertAny_explicit_fallback (env : Env) (p c : String)
    (h : supportedPair (pyLower (splitextExt p)) (lstripDots (pyLower c)) = false) :
    convertAny env p (some c) =
      ((tryFallbackConversion env p (lstripDots (pyLower c))).1,
       ((tryFallbackConversion env p (lstripDots (pyLower c))).2).toList) ∧
    (∀ o, env.libre p (lstripDots (pyLower c)) = .ok o →
      tryFallbackConversion env p (lstripDots (pyLower c)) =
        ([(.libre, lstripDots (pyLower c))], some o)) ∧
    (∀ e, env.libre p (lstripDots (pyLower c)) = .error e →
      DOC_LIKE.contains (lstripDots (pyLower c)) = true →
      tryFallbackConversion env p (lstripDots (pyLower c)) =
        ([(.libre, lstripDots (pyLower c)), (.abi, lstripDots (pyLower c))],
         (env.abi p (lstripDots (pyLower c))).toOption)) ∧
    (∀ e, env.libre p (lstripDots (pyLower c)) = .error e →
      DOC_LIKE.contains (lstripDots (pyLower c)) = false →
      tryFallbackConversion env p (lstripDots (pyLower c)) =
        ([(.libre, lstripDots (pyLower c))], none)) := by
  refine ⟨?_, ?_, ?_, ?_⟩
  · unfold convertAny
    simp only [resolveTargets, List.isEmpty_cons, Option.isSome_some, if_false,
      Bool.false_eq_true, convertAnyLoop]
    rw [convertTargetStep_not_supported env p _ _ h]
    rcases htf : tryFallbackConversion env p (lstripDots (pyLower c)) with ⟨a, o⟩
    cases o with
    | some v => simp [convertAnyLoop, htf]
    | none => simp [convertAnyLoop, htf]
  · intro o ho
    simp [tryFallbackConversion, ho]
  · intro e he hc
    simp only [tryFallbackConversion, he, hc, if_true]
    cases env.abi p (lstripDots (pyLower c)) with
    | ok o => rfl
    | error e2 => rfl
  · intro e he hc
    simp only [tryFallbackConversion, he, hc, Bool.false_eq_true, if_false]

theorem convertAny_explicit_fallback_witness :
    supportedPair (pyLower (splitextExt "a.zzz")) (lstripDots (pyLower "pdf")) = false ∧
      convertAny envAllFail "a.zzz" (some "pdf") =
        ([(Adapter.libre, "pdf"), (Adapter.abi, "pdf")], []) := by
  refine ⟨by decide, ?_⟩
  rw [(convertAny_explicit_fallback envAllFail "a.zzz" "pdf" (by decide)).1]
  rfl

theorem libreScanLoop_eq_find (base tExt : String) :
    ∀ l : List String, libreScanLoop base tExt l =
      l.find? (fun n =>
        pyStartsWith (pyLower n) (pyLower base) && pyEndsWith (pyLower n) ("." ++ tExt)) := by
  intro l
  induction l with
  | nil => rfl
  | cons n ns ih =>
    by_cases hp :
        (pyStartsWith (pyLower n) (pyLower base) && pyEndsWith (pyLower n) ("." ++ tExt)) = true
    · simp [libreScanLoop, List.find?_cons, hp]
    · simp only [Bool.not_eq_true] at hp
      simp [libreScanLoop, List.find?_cons, hp, ih]

/-- C5 counterexample: with basename `report` and target extension `PDF`, the
directory listing `["report.pdf"]` contains a file that case-insensitively
starts with the basename and case-insensitively ends with `".PDF"`, so the
claim says the adapter returns it; the code lowercases only the filename, the
suffix test `"report.pdf".lower().endswith(".PDF")` fails, and the adapter
raises instead. -/
theorem libreLocateOutput_counterexample :
    libreLocateOutput ["report.pdf"] "report" "PDF" =
      .error "LibreOffice conversion failed: report.PDF" ∧
    pyStartsWith (pyLower "report.pdf") (pyLower "report") = true ∧
    pyEndsWith (pyLower "report.pdf") (pyLower ".PDF") = true :=
  ⟨rfl, by decide, by decide⟩

/-- C5 (amended): after running the tool the adapter returns
`<basename>.<target_ext>` if that file exists in the output directory;
otherwise it returns the first file, in directory-listing order, whose
lowercased name starts with the lowercased basename and ends with the literal
string `".<target_ext>"` (so the suffix comparison is case-insensitive only
when the target extension is lowercase); if no such file exists the adapter
fails with an error.  Stated as: the translated code equals the function
written from the amended specification text. -/
theorem libreLocateOutput_eq_spec (listing : List String) (base tExt : String) :
    libreLocateOutput listing base tExt = libreLocateOutputSpec listing base tExt := by
  unfold libreLocateOutput libreLocateOutputSpec
  by_cases hmem : (base ++ "." ++ tExt) ∈ listing
  · simp [hmem]
  · simp [hmem, libreScanLoop_eq_find]

/-- C6 counterexample: a two-sheet source workbook (sheets `A` and `B`).  The
claim says the fallback writes a workbook with the same sheet names and
values; `PandasXLSConverter.convert` reads only the default first sheet
(`pd.read_excel` without `sheet_name`) and writes a single sheet under the
library's default name, so the output differs from the claimed one. -/
theorem pandasXlsConvert_counterexample :
    pandasXlsConvert [("A", [["1"]]), ("B", [["2"]])] = .ok [("Sheet1", [["1"]])] ∧
      [(("Sheet1" : String), ([["1"]] : Sheet))] ≠ [("A", [["1"]]), ("B", [["2"]])] :=
  ⟨rfl, by decide⟩

/-- C6 (amended): when the headless-suite adapter fails, the manager's
spreadsheet-library fallback (`PandasXLSConverter.convert`) runs; it reads
only the default first sheet of the source workbook and writes a single-sheet
`.xlsx` whose one sheet carries the library's default sheet name and the first
sheet's cell values, without writing column index values.  (The legacy helper
`xls_to_xlsx_pandas` of the top-level `convert.py` is the variant that
preserves every sheet with its name and values.) -/
theorem pandasXlsConvert_first_sheet_only (name : String) (s : Sheet) (rest wb : Workbook)
    (env : Env) (p e : String) :
    pandasXlsConvert ((name, s) :: rest) = .ok [("Sheet1", s)] ∧
    xlsToXlsxPandas wb = wb ∧
    (env.libre p "xlsx" = .error e →
      convertXlsToXlsx env p =
        ([(.libre, "xlsx"), (.pandas, "xlsx")], env.pandas p)) := by
  refine ⟨rfl, ?_, ?_⟩
  · induction wb with
    | nil => rfl
    | cons hd tl ih =>
      simp only [xlsToXlsxPandas, readExcelAllSheets, toExcelSheet, List.map_cons,
        Bool.false_eq_true, if_false] at ih ⊢
      simp [ih]
  · intro he
    simp only [convertXlsToXlsx, he]
    cases hp : env.pandas p with
    | ok o => rfl
    | error e2 => rfl

theorem pandasXlsConvert_first_sheet_only_witness :
    pandasXlsConvert [("A", [["1", "2"]])] = .ok [("Sheet1", [["1", "2"]])] ∧
      convertXlsToXlsx envAllFail "sheet.xls" =
        ([(Adapter.libre, "xlsx"), (Adapter.pandas, "xlsx")], .error "pandas failed") := by
  refine ⟨(pandasXlsConvert_first_sheet_only "A" [["1", "2"]] [] [] envAllFail "sheet.xls"
    "x").1, ?_⟩
  rw [(pandasXlsConvert_first_sheet_only "A" [["1", "2"]] [] [] envAllFail "sheet.xls"
    "libreoffice failed").2.2 rfl]
  rfl

/-- C7: the directory branch of `convert_path` processes the walked
`(root, filename)` entries independently (the result is the in-order
`filterMap` of the per-file step, so one file's failure cannot affect the
others), skips hidden filenames and filenames whose lowercased extension is
not a `CONVERSION_MAPPINGS` key, records no entry when the manager raises or
returns an empty output list, and records the entry `(path, outputs)` exactly
for eligible files with a non-empty output list. -/
theorem convertPathDir_characterization (conv : String → Except String (List String))
    (walk : List (String × String)) :
    convertPathDir conv walk = walk.filterMap (convertPathStep conv) ∧
    (∀ root file, pyStartsWith file "." = true → convertPathStep conv (root, file) = none) ∧
    (∀ root file, mappingsGet (pyLower (splitextExt file)) = none →
      convertPathStep conv (root, file) = none) ∧
    (∀ root file e, conv (root ++ "/" ++ file) = .error e →
      convertPathStep conv (root, file) = none) ∧
    (∀ root file, conv (root ++ "/" ++ file) = .ok [] →
      convertPathStep conv (root, file) = none) ∧
    (∀ root file outs, pyStartsWith file "." = false →
      (mappingsGet (pyLower (splitextExt file))).isSome = true →
      conv (root ++ "/" ++ file) = .ok outs → outs ≠ [] →
      convertPathStep conv (root, file) = some (root ++ "/" ++ file, outs)) := by
  refine ⟨?_, ?_, ?_, ?_, ?_, ?_⟩
  · induction walk with
    | nil => rfl
    | cons entry tl ih =>
      cases h : convertPathStep conv entry with
      | some r => simp [convertPathDir, List.filterMap_cons, h, ih]
      | none => simp [convertPathDir, List.filterMap_cons, h, ih]
  · intro root file h
    simp [convertPathStep, h]
  · intro root file h
    unfold convertPathStep
    split
    · rfl
    · simp [h]
  · intro root file e h
    unfold convertPathStep
    split
    · rfl
    · split
      · simp [h]
      · rfl
  · intro root file h
    unfold convertPathStep
    split
    · rfl
    · split
      · simp [h]
      · rfl
  · intro root file outs h1 h2 h3 h4
    have h5 : outs.isEmpty = false := by
      cases outs with
      | nil => exact absurd rfl h4
      | cons a l => rfl
    simp [convertPathStep, h1, h2, h3, h5]

/-- A conversion oracle for the directory-mode witness: fails on one specific
file and succeeds on every other. -/
def convTest : String → Except String (List String) :=
  fun p => if p == "d/bad.doc" then .error "boom" else .ok [p ++ ".pdf"]

theorem convertPathDir_characterization_witness :
    convertPathStep convTest ("d", "a.doc") = some ("d/a.doc", ["d/a.doc.pdf"]) ∧
      convertPathStep convTest ("d", "bad.doc") = none ∧
      convertPathStep convTest ("d", ".hidden.doc") = none ∧
      convertPathStep convTest ("d", "c.txt") = none :=
  ⟨(convertPathDir_characterization convTest []).2.2.2.2.2 "d" "a.doc" ["d/a.doc.pdf"]
      (by decide) (by decide) rfl (by decide),
   (convertPathDir_characterization convTest []).2.2.2.1 "d" "bad.doc" "boom" rfl,
   (convertPathDir_characterization convTest []).2.1 "d" ".hidden.doc" rfl,
   (convertPathDir_characterization convTest []).2.2.1 "d" "c.txt" (by decide)⟩

/-- C8 counterexample: when `DISPLAY` is set to the empty string, the
variable is present and differs from `":99"`, so the claim says the adapter
runs the tool unwrapped; Python's truthiness test `not display` is true for
the empty string, so the code wraps the invocation in `xvfb-run`. -/
theorem abiCommand_empty_display_counterexample :
    (abiCommand (some "") "/tmp/in.doc" "pdf").head? = some "xvfb-run" ∧
      (some "" : Option String) ≠ none ∧ (some "" : Option String) ≠ some ":99" := by
  refine ⟨rfl, by decide, by decide⟩

/-- C8 (amended): the AbiWord adapter wraps its invocation in `xvfb-run`
exactly when the `DISPLAY` environment variable is absent, set to the empty
string, or equal to `":99"`; with wrapping required and `xvfb-run` not
installed it fails; after a successful run that produced output it returns
the destination path in the current working directory, and when source
directory and working directory give distinct paths it removes a pre-existing
destination file and moves the tool's output there; when the run produced no
output file it fails. -/
theorem abiConvert_characterization (env : AbiEnv)
    (inputDir cwd base tExt inputAbs : String) :
    (displayNeedsXvfb env.display = true ↔
      (env.display = none ∨ env.display = some "" ∨ env.display = some ":99")) ∧
    ((abiCommand env.display inputAbs tExt).head? = some "xvfb-run" ↔
      displayNeedsXvfb env.display = true) ∧
    (env.abiwordInstalled = true → displayNeedsXvfb env.display = true →
      env.xvfbInstalled = false →
      abiConvert env inputDir cwd base tExt =
        .error "xvfb-run required for headless AbiWord operation.") ∧
    (env.abiwordInstalled = true →
      (displayNeedsXvfb env.display = true → env.xvfbInstalled = true) →
      env.runOk = true → env.outputProduced = true →
      inputDir ++ "/" ++ base ++ "." ++ tExt ≠ cwd ++ "/" ++ base ++ "." ++ tExt →
      abiConvert env inputDir cwd base tExt =
        .ok (cwd ++ "/" ++ base ++ "." ++ tExt,
          (if env.destPreexists then [FsOp.remove (cwd ++ "/" ++ base ++ "." ++ tExt)]
            else []) ++
            [FsOp.move (inputDir ++ "/" ++ base ++ "." ++ tExt)
              (cwd ++ "/" ++ base ++ "." ++ tExt)])) ∧
    (env.abiwordInstalled = true →
      (displayNeedsXvfb env.display = true → env.xvfbInstalled = true) →
      env.runOk = true → env.outputProduced = false →
      abiConvert env inputDir cwd base tExt =
        .error ("AbiWord conversion failed: " ++ (inputDir ++ "/" ++ base ++ "." ++ tExt))) := by
  have hwrap : ∀ dn : Option String, displayNeedsXvfb dn = true ↔
      (dn = none ∨ dn = some "" ∨ dn = some ":99") := by
    intro dn
    cases dn with
    | none => simp [displayNeedsXvfb]
    | some s => simp [displayNeedsXvfb]
  refine ⟨hwrap env.display, ?_, ?_, ?_, ?_⟩
  · unfold abiCommand
    by_cases hd : displayNeedsXvfb env.display = true
    · simp [hd]
    · simp only [Bool.not_eq_true] at hd
      simp [hd]
  · intro h1 h2 h3
    simp [abiConvert, h1, h2, h3]
  · intro h1 h2 h3 h4 hne
    have h5 : (displayNeedsXvfb env.display && !env.xvfbInstalled) = false := by
      cases hdn : displayNeedsXvfb env.display
      · rfl
      · simp [h2 hdn]
    simp [abiConvert, h1, h3, h4, h5, hne]
  · intro h1 h2 h3 h4
    have h5 : (displayNeedsXvfb env.display && !env.xvfbInstalled) = false := by
      cases hdn : displayNeedsXvfb env.display
      · rfl
      · simp [h2 hdn]
    simp [abiConvert, h1, h3, h4, h5]

theorem abiConvert_characterization_witness :
    abiConvert ⟨true, some ":99", true, true, true, true⟩ "/in" "/cwd" "doc" "pdf" =
      .ok ("/cwd/doc.pdf",
        [FsOp.remove "/cwd/doc.pdf", FsOp.move "/in/doc.pdf" "/cwd/doc.pdf"]) := by
  have h := (abiConvert_characterization ⟨true, some ":99", true, true, true, true⟩
    "/in" "/cwd" "doc" "pdf" "/in/doc.pdf").2.2.2.1 rfl (fun _ => rfl) rfl rfl (by decide)
  simpa using h

/-- C9: `HWPConverter.to_pdf` with its default arguments (`remove_html=True`):
once the markup step produced its output directory, the intermediate markup
directory tree is removed both when the PDF rendering succeeds (the PDF path
in the working directory is returned) and when the rendering raises (the
wrapped error is re-raised to the manager). -/
theorem hwpToPdf_removes_markup_dir (outDir cwd base e : String) :
    hwpToPdf (.ok outDir) (.ok ()) cwd base true =
      ([FsOp.rmtree outDir], .ok (cwd ++ "/" ++ base ++ ".pdf")) ∧
    hwpToPdf (.ok outDir) (.error e) cwd base true =
      ([FsOp.rmtree outDir], .error ("HWP to PDF conversion failed: " ++ e)) :=
  ⟨rfl, rfl⟩
